import Mathlib

/-!
Verification of the google-photos-metadata embedder scripts
(src/google_photos_metadata_embedder.py and
src/google_photos_metadata_embedder_png.py).

The Python code is shallowly embedded: JSON values become an inductive
`JsonVal`, Python dict/number/string primitives become executable Lean
functions over it, the piexif EXIF dictionary becomes `ExifDict`
(association lists of tag ids), and each function of the scripts becomes a
Lean definition of the same name.  Python floats are modelled as exact
rationals, fallible Python code (code that can raise) returns `Option`.
-/

/-- A JSON value as produced by Python's `json.load`:  `None`, `bool`,
`int`, `float`, `str`, list and dict (insertion-ordered association list). -/
inductive JsonVal where
  | jnull
  | jbool (b : Bool)
  | jint (n : Int)
  | jfloat (q : Rat)
  | jstr (s : String)
  | jarr (elems : List JsonVal)
  | jobj (fields : List (String × JsonVal))

/-- Python truthiness (`if v:`): `None`, `False`, zero, and empty
strings/lists/dicts are falsy, everything else is truthy. -/
def pyTruthy : JsonVal → Bool
  | .jnull => false
  | .jbool b => b
  | .jint n => if n = 0 then false else true
  | .jfloat q => if q = 0 then false else true
  | .jstr s => if s = "" then false else true
  | .jarr es => !es.isEmpty
  | .jobj fs => !fs.isEmpty

/-- `v is None` test. -/
def isNone : JsonVal → Bool
  | .jnull => true
  | _ => false

/-- Python `dict.get(k)` on the fields of a dict: the stored value if the
key is present (which may itself be `None`), `None` if absent. -/
def pyGetField (fs : List (String × JsonVal)) (k : String) : JsonVal :=
  (fs.lookup k).getD .jnull

/-- Python `v.get(k, d)` on an arbitrary value: `none` models the
`AttributeError` raised when `v` is not a dict. -/
def pyGetD (v : JsonVal) (k : String) (d : JsonVal) : Option JsonVal :=
  match v with
  | .jobj fs => some ((fs.lookup k).getD d)
  | _ => none

/-- Python `v.get(k)` (default `None`). -/
def pyGet (v : JsonVal) (k : String) : Option JsonVal := pyGetD v k .jnull

/-- Python `==` between a value and a string literal (used for `in` on lists). -/
def eqStr : JsonVal → String → Bool
  | .jstr s, k => s == k
  | _, _ => false

/-- Naive substring test, modelling Python's `needle in haystack` on strings. -/
def strContains (hay needle : String) : Bool :=
  (List.range (hay.toList.length + 1)).any
    (fun i => ((hay.toList.drop i).take needle.toList.length) == needle.toList)

/-- Python `k in v` for a string key `k`: key test on dicts, element test on
lists, substring test on strings; `none` models the `TypeError` raised on
`None`/numbers/booleans. -/
def pyContainsKey (v : JsonVal) (k : String) : Option Bool :=
  match v with
  | .jobj fs => some (fs.lookup k).isSome
  | .jarr es => some (es.any (fun e => eqStr e k))
  | .jstr s => some (strContains s k)
  | _ => none

/-- Python `v[k]` for a string key: dict lookup; `none` models the
`TypeError`/`KeyError` raised otherwise. -/
def pySubscript (v : JsonVal) (k : String) : Option JsonVal :=
  match v with
  | .jobj fs => fs.lookup k
  | _ => none

/-- Python `int(q)` on a float modelled as a rational: truncation toward zero. -/
def pyInt (q : Rat) : Int := if 0 ≤ q then ⌊q⌋ else -⌊-q⌋

/-- Python `round(q)` on a float modelled as a rational: nearest integer,
ties to the even one (banker's rounding). -/
def pyRound (q : Rat) : Int :=
  if Int.fract q < 1/2 then ⌊q⌋
  else if 1/2 < Int.fract q then ⌊q⌋ + 1
  else if ⌊q⌋ % 2 = 0 then ⌊q⌋ else ⌊q⌋ + 1

/-- ASCII whitespace as stripped by Python's `int(str)` (space, tab,
newline, carriage return, vertical tab, form feed; the full Unicode
whitespace set of `str.isspace` is outside the modelled character set). -/
def isPyWhitespace (c : Char) : Bool :=
  c = ' ' || c = '\t' || c = '\n' || c = '\r' || c.toNat = 11 || c.toNat = 12

/-- Strip leading and trailing whitespace, as `int(str)` does before
parsing. -/
def stripChars (cs : List Char) : List Char :=
  ((cs.dropWhile isPyWhitespace).reverse.dropWhile isPyWhitespace).reverse

/-- Continuation of `parseDigitsU` after at least one digit: further
digits, with single underscores allowed only between two digits (Python's
numeric-literal underscore rule for `int(str)`). -/
def parseDigitsUAux : Nat → List Char → Option Nat
  | acc, [] => some acc
  | acc, '_' :: d :: rest =>
    if d.isDigit then parseDigitsUAux (acc * 10 + (d.toNat - 48)) rest else none
  | _, ['_'] => none
  | acc, c :: rest =>
    if c.isDigit then parseDigitsUAux (acc * 10 + (c.toNat - 48)) rest else none

/-- Digit run as `int(str)` accepts it: a leading decimal digit, then
digits with single underscores between digits. -/
def parseDigitsU : List Char → Option Nat
  | [] => none
  | c :: rest => if c.isDigit then parseDigitsUAux (c.toNat - 48) rest else none

/-- Python `int(s)` on a string: surrounding whitespace stripped, then an
optional sign followed by decimal digits with optional single underscores
between digits (`int(" 1_700_000_000 ")` succeeds); `none` models the
`ValueError` raised otherwise. -/
def parseIntStr (s : String) : Option Int :=
  match stripChars s.toList with
  | '-' :: rest => (parseDigitsU rest).map (fun n => -(n : Int))
  | '+' :: rest => (parseDigitsU rest).map (fun n => (n : Int))
  | cs => (parseDigitsU cs).map (fun n => (n : Int))

/-- Python `int(v)` on a JSON value: ints unchanged, booleans 0/1, floats
truncated toward zero, strings parsed; `none` models the
`TypeError`/`ValueError` raised on `None`, lists and dicts. -/
def pythonInt : JsonVal → Option Int
  | .jint n => some n
  | .jbool b => some (if b then 1 else 0)
  | .jfloat q => some (pyInt q)
  | .jstr s => parseIntStr s
  | _ => none

/-- Zero-padded two-digit rendering of a nonnegative integer below 100. -/
def pad2 (n : Int) : String :=
  if n < 10 then "0" ++ toString n else toString n

/-- Zero-padded four-digit rendering of a year. -/
def pad4 (n : Int) : String :=
  if n < 10 then "000" ++ toString n
  else if n < 100 then "00" ++ toString n
  else if n < 1000 then "0" ++ toString n
  else toString n

/-- Proleptic-Gregorian civil date from a day count relative to 1970-01-01
(Howard Hinnant's `civil_from_days` algorithm, as used by Python's
`datetime` for UTC). -/
def civilFromDays (z0 : Int) : Int × Int × Int :=
  let z := z0 + 719468
  let era := z.fdiv 146097
  let doe := z - era * 146097
  let yoe := (doe - doe.fdiv 1460 + doe.fdiv 36524 - doe.fdiv 146096).fdiv 365
  let y := yoe + era * 400
  let doy := doe - (365 * yoe + yoe.fdiv 4 - yoe.fdiv 100)
  let mp := (5 * doy + 2).fdiv 153
  let d := doy - (153 * mp + 2).fdiv 5 + 1
  let m := mp + (if mp < 10 then 3 else -9)
  (y + (if m ≤ 2 then 1 else 0), m, d)

/-- `datetime.fromtimestamp(ts, timezone.utc).strftime("%Y:%m:%d %H:%M:%S")`:
the epoch-seconds value rendered as a fixed-width UTC date-time string.
`datetime` only represents years 1..9999, so `fromtimestamp` raises
(`ValueError`/`OverflowError`) for instants outside that range — modelled
as `none` (the caller's `except` turns it into the `(None, None)` parse
failure). -/
def formatEpochUTC (ts : Int) : Option String :=
  let days := ts.fdiv 86400
  let secs := ts.emod 86400
  let ymd := civilFromDays days
  if 1 ≤ ymd.1 ∧ ymd.1 ≤ 9999 then
    some (pad4 ymd.1 ++ ":" ++ pad2 ymd.2.1 ++ ":" ++ pad2 ymd.2.2 ++ " " ++
      pad2 (secs.fdiv 3600) ++ ":" ++ pad2 ((secs.emod 3600).fdiv 60) ++ ":" ++
      pad2 (secs.emod 60))
  else none

/-- `str.lower()`, character-wise. -/
def lowerStr (s : String) : String := String.mk (s.toList.map Char.toLower)

/-- `str.endswith(suffix)`. -/
def endsWithStr (s suffix : String) : Bool := suffix.toList.isSuffixOf s.toList

/-- `str.startswith(pre)`. -/
def startsWithStr (s pre : String) : Bool := pre.toList.isPrefixOf s.toList

/-- Helper for `basename`: the characters after the last path separator. -/
def basenameChars : List Char → List Char → List Char
  | acc, [] => acc.reverse
  | acc, c :: rest => if c = '/' then basenameChars [] rest else basenameChars (c :: acc) rest

/-- `os.path.basename`. -/
def basename (p : String) : String := String.mk (basenameChars [] p.toList)

/-- Hexadecimal digit character (lowercase, as Python's `json.dumps` emits). -/
def hexDigit (n : Nat) : Char := if n < 10 then Char.ofNat (48 + n) else Char.ofNat (87 + n)

/-- Four-digit lowercase hexadecimal rendering (for `\uXXXX` escapes). -/
def hex4 (n : Nat) : String :=
  String.mk [hexDigit (n / 4096 % 16), hexDigit (n / 256 % 16), hexDigit (n / 16 % 16), hexDigit (n % 16)]

/-- Escaping of one character as in Python's `json.dumps` with its default
`ensure_ascii=True`: quote, backslash and control characters get short
escapes, non-ASCII characters become `\uXXXX` (surrogate pairs beyond the
basic plane). -/
def escapeJsonChar (c : Char) : String :=
  if c = '"' then "\\\""
  else if c = '\\' then "\\\\"
  else if c = '\n' then "\\n"
  else if c = '\t' then "\\t"
  else if c = '\r' then "\\r"
  else if c.toNat = 8 then "\\b"
  else if c.toNat = 12 then "\\f"
  else if c.toNat < 32 then "\\u" ++ hex4 c.toNat
  else if c.toNat < 127 then String.mk [c]
  else if c.toNat < 65536 then "\\u" ++ hex4 c.toNat
  else
    "\\u" ++ hex4 (55296 + (c.toNat - 65536) / 1024) ++ "\\u" ++ hex4 (56320 + (c.toNat - 65536) % 1024)

/-- JSON string-literal rendering: quotes around the escaped characters. -/
def dumpStr (s : String) : String :=
  "\"" ++ String.join (s.toList.map escapeJsonChar) ++ "\""

/-- Fractional decimal digits of a rational in `[0, 1)`, fuel-bounded. -/
def fracDigitsAux : Nat → Rat → String
  | 0, _ => ""
  | n + 1, q => if q = 0 then "" else toString ⌊q * 10⌋ ++ fracDigitsAux n (q * 10 - ⌊q * 10⌋)

/-- Decimal exponent search, downward: for `a ≥ 1`, the `k` with
`a / 10^k` in `[1, 10)` (fuel-bounded). -/
def decExponentUp : Nat → Rat → Nat
  | 0, _ => 0
  | fuel + 1, a => if a < 10 then 0 else decExponentUp fuel (a / 10) + 1

/-- Decimal exponent search, upward: for `0 < a < 1`, the `k` with
`a * 10^k` in `[1, 10)` (fuel-bounded). -/
def decExponentDown : Nat → Rat → Nat
  | 0, _ => 0
  | fuel + 1, a => if 1 ≤ a then 0 else decExponentDown fuel (a * 10) + 1

/-- Mantissa rendering for scientific notation: the single leading digit,
then a fractional part only when nonzero (`repr(1e-05)` is `"1e-05"`, not
`"1.0e-05"`). -/
def sciDigits (m : Rat) : String :=
  let ds := fracDigitsAux 40 (m - ⌊m⌋)
  toString ⌊m⌋ ++ (if ds = "" then "" else "." ++ ds)

/-- Exponent suffix as CPython prints it: a sign and at least two digits
(`e-05`, `e+16`). -/
def expSuffix (neg : Bool) (e : Nat) : String :=
  "e" ++ (if neg then "-" else "+") ++ (if e < 10 then "0" ++ toString e else toString e)

/-- Decimal rendering of a Python float modelled as a rational, following
CPython's `repr` format rule: scientific notation when the decimal
exponent is below -4 or at least 16, plain positional notation (with at
least one fractional digit) otherwise.  `repr` prints the shortest decimal
that round-trips the underlying binary float; for the exact rationals of
this model we print the exact decimal expansion, which agrees on every
float whose stored value is exactly its decimal text. -/
def floatRepr (q : Rat) : String :=
  if q = 0 then "0.0"
  else
    let sign := if q < 0 then "-" else ""
    let a := |q|
    if a < 1/10000 then
      let k := decExponentDown 4000 a
      let m := a * (10 : Rat) ^ k
      sign ++ sciDigits m ++ expSuffix true k
    else if (10 : Rat) ^ (16 : Nat) ≤ a then
      let k := decExponentUp 4000 a
      let m := a / (10 : Rat) ^ k
      sign ++ sciDigits m ++ expSuffix false k
    else
      let ds := fracDigitsAux 40 (a - ⌊a⌋)
      sign ++ toString ⌊a⌋ ++ "." ++ (if ds = "" then "0" else ds)

mutual

/-- Python `json.dumps` with default separators: `", "` between items and
`": "` after keys. -/
def jsonDumps : JsonVal → String
  | .jnull => "null"
  | .jbool true => "true"
  | .jbool false => "false"
  | .jint n => toString n
  | .jfloat q => floatRepr q
  | .jstr s => dumpStr s
  | .jarr es => "[" ++ jsonDumpsList es ++ "]"
  | .jobj fs => "\x7b" ++ jsonDumpsFields fs ++ "\x7d"

/-- Comma-joined serialization of list elements. -/
def jsonDumpsList : List JsonVal → String
  | [] => ""
  | [v] => jsonDumps v
  | v :: rest => jsonDumps v ++ ", " ++ jsonDumpsList rest

/-- Comma-joined serialization of dict entries. -/
def jsonDumpsFields : List (String × JsonVal) → String
  | [] => ""
  | [(k, v)] => dumpStr k ++ ": " ++ jsonDumps v
  | (k, v) :: rest => dumpStr k ++ ": " ++ jsonDumps v ++ ", " ++ jsonDumpsFields rest

end

/-- A value stored in an EXIF IFD entry: a byte string, a small integer, a
single rational, or a triple of rationals (the DMS encoding). -/
inductive ExifVal where
  | bytes (s : String)
  | short (n : Int)
  | rational (num den : Int)
  | rational3 (v : (Int × Int) × (Int × Int) × (Int × Int))
deriving DecidableEq

/-- piexif tag id `GPSIFD.GPSLatitudeRef`. -/
def GPSLatitudeRefTag : Nat := 1

/-- piexif tag id `GPSIFD.GPSLatitude`. -/
def GPSLatitudeTag : Nat := 2

/-- piexif tag id `GPSIFD.GPSLongitudeRef`. -/
def GPSLongitudeRefTag : Nat := 3

/-- piexif tag id `GPSIFD.GPSLongitude`. -/
def GPSLongitudeTag : Nat := 4

/-- piexif tag id `GPSIFD.GPSAltitudeRef`. -/
def GPSAltitudeRefTag : Nat := 5

/-- piexif tag id `GPSIFD.GPSAltitude`. -/
def GPSAltitudeTag : Nat := 6

/-- piexif tag id `ImageIFD.DateTime` (the 0th-IFD last-modified field). -/
def DateTimeTag : Nat := 306

/-- piexif tag id `ExifIFD.DateTimeOriginal`. -/
def DateTimeOriginalTag : Nat := 36867

/-- piexif tag id `ExifIFD.DateTimeDigitized`. -/
def DateTimeDigitizedTag : Nat := 36868

/-- piexif tag id `ExifIFD.UserComment`. -/
def UserCommentTag : Nat := 37510

/-- Python dict assignment `ifd[tag] = v` on an insertion-ordered IFD:
replace the entry in place if the tag is present, else append it. -/
def setTag : List (Nat × ExifVal) → Nat → ExifVal → List (Nat × ExifVal)
  | [], t, v => [(t, v)]
  | (k, w) :: rest, t, v => if k = t then (t, v) :: rest else (k, w) :: setTag rest t v

/-- Lookup of a tag in an IFD. -/
def lookupTag : List (Nat × ExifVal) → Nat → Option ExifVal
  | [], _ => none
  | (k, w) :: rest, t => if t = k then some w else lookupTag rest t

/-- The entries of an IFD whose tags are outside a given set (used to state
that an update leaves every other entry unchanged). -/
def dropTags : List (Nat × ExifVal) → List Nat → List (Nat × ExifVal)
  | [], _ => []
  | (k, w) :: rest, banned =>
    if k ∈ banned then dropTags rest banned else (k, w) :: dropTags rest banned

/-- The piexif metadata container returned by `piexif.load`: the 0th, Exif,
GPS, 1st and Interop IFDs plus the optional thumbnail bytes. -/
structure ExifDict where
  zeroth : List (Nat × ExifVal)
  exifIfd : List (Nat × ExifVal)
  gps : List (Nat × ExifVal)
  firstIfd : List (Nat × ExifVal)
  interop : List (Nat × ExifVal)
  thumbnail : Option String
deriving DecidableEq

/-- `to_deg` (inner function of `add_gps_info`): decimal degrees to the EXIF
rational DMS triple `((deg, 1), (min, 1), (sec, 10000))`, where `int`
truncates and `round` is Python rounding. -/
def to_deg (value : Rat) : (Int × Int) × (Int × Int) × (Int × Int) :=
  let abs_val := |value|
  let deg := pyInt abs_val
  let min_float := (abs_val - deg) * 60
  let mn := pyInt min_float
  let sec := pyRound ((min_float - mn) * 60 * 10000)
  ((deg, 1), (mn, 1), (sec, 10000))

/-- A JSON number usable as a Python float/number; `none` models the
`TypeError` raised by `abs`/arithmetic on non-numeric values. -/
def asNum : JsonVal → Option Rat
  | .jint n => some (n : Rat)
  | .jfloat q => some q
  | .jbool b => some (if b then 1 else 0)
  | _ => none

/-- `add_gps_info(exif_dict, lat, lng, alt)`: builds a fresh GPS IFD — the
lat/lng entries only when both are non-`None`, the altitude entries
(`(int(abs(alt) * 100), 100)` and the 0/1 reference flag; the first,
non-absolute assignment at line 74 of the source is immediately overwritten
by line 75) when `alt` is non-`None` — and assigns it to `exif_dict["GPS"]`,
replacing the previous GPS IFD.  `none` models an exception escaping from
non-numeric coordinate values. -/
def add_gps_info (exif : ExifDict) (lat lng alt : JsonVal) : Option ExifDict :=
  let og1 : Option (List (Nat × ExifVal)) :=
    if !(isNone lat) && !(isNone lng) then
      match asNum lat, asNum lng with
      | some la, some ln =>
        some (setTag (setTag (setTag (setTag []
          GPSLatitudeRefTag (.bytes (if 0 ≤ la then "N" else "S")))
          GPSLatitudeTag (.rational3 (to_deg la)))
          GPSLongitudeRefTag (.bytes (if 0 ≤ ln then "E" else "W")))
          GPSLongitudeTag (.rational3 (to_deg ln)))
      | _, _ => none
    else some []
  match og1 with
  | none => none
  | some g1 =>
    match (if !(isNone alt) then
        (match asNum alt with
         | some a =>
           some (setTag (setTag g1
             GPSAltitudeTag (.rational (pyInt (|a| * 100)) 100))
             GPSAltitudeRefTag (.short (if 0 ≤ a then 0 else 1)))
         | none => none)
      else some g1) with
    | none => none
    | some g2 => some { exif with gps := g2 }

/-- The time-setting step of `embed_full_exif_jpeg` (lines 88-92): when a
date-time string is present, write it (UTF-8 encoded) into
`Exif.DateTimeOriginal`, `Exif.DateTimeDigitized` and `0th.DateTime`. -/
def applyDatetime (exif : ExifDict) : Option String → ExifDict
  | none => exif
  | some s =>
    { exif with
      exifIfd := setTag (setTag exif.exifIfd DateTimeOriginalTag (.bytes s))
        DateTimeDigitizedTag (.bytes s),
      zeroth := setTag exif.zeroth DateTimeTag (.bytes s) }

/-- Line 95: `json_data.get("geoDataExif") or json_data.get("geoData")` —
Python `or` returns its first operand when truthy, else the second, so a
missing, `null` or empty `geoDataExif` falls through to `geoData`. -/
def chooseGeo (json_data : List (String × JsonVal)) : JsonVal :=
  let a := pyGetField json_data "geoDataExif"
  if pyTruthy a then a else pyGetField json_data "geoData"

/-- The chained lookup at lines 108 / 138:
`json_data.get("googlePhotosOrigin", {}).get("mobileUpload", {}).get("deviceType")`;
`none` models the `AttributeError` raised when an intermediate value is
present but not a dict. -/
def deviceChain (json_data : List (String × JsonVal)) : Option JsonVal := do
  let g ← pyGetD (.jobj json_data) "googlePhotosOrigin" (.jobj [])
  let m ← pyGetD g "mobileUpload" (.jobj [])
  pyGet m "deviceType"

/-- Models the expression `piexif.ImageIFD.UserComment.encode("utf-8")` at
line 114 of the source: piexif tag attributes are Python integers (and
`ImageIFD` has no `UserComment` attribute at all), so evaluating this
expression raises `AttributeError` unconditionally — an integer has no
`encode` method.  The surrounding `try`/`except` catches it, hence the value
is the failing `none`. -/
def userCommentEncodePrefixAttr : Option String := none

/-- The UserComment step of `embed_full_exif_jpeg` (lines 104-116, the inner
`try` body): build the compact provenance dict, serialize it, and prepend
the (always-failing, see `userCommentEncodePrefixAttr`) encoding prefix
before assigning `Exif.UserComment`.  `none` models any exception caught by
the inner `except`. -/
def set_user_comment (exifIfd : List (Nat × ExifVal)) (json_data : List (String × JsonVal)) :
    Option (List (Nat × ExifVal)) := do
  let device ← deviceChain json_data
  let short_json : JsonVal := .jobj
    [("device", device), ("url", pyGetField json_data "url"),
     ("imageViews", pyGetField json_data "imageViews")]
  let user_comment := jsonDumps short_json
  let pre ← userCommentEncodePrefixAttr
  pure (setTag exifIfd UserCommentTag (.bytes (pre ++ user_comment)))

/-- `embed_full_exif_jpeg` up to and including the GPS step (lines 85-101):
set the three date-time fields, choose the geo record, and when it is
truthy write GPS data only if both `latitude` and `longitude` are
non-`None`.  `none` models an exception (a truthy non-dict geo value, or
non-numeric coordinates inside `add_gps_info`). -/
def embed_core (exif : ExifDict) (json_data : List (String × JsonVal))
    (datetime_str : Option String) : Option ExifDict :=
  let exif1 := applyDatetime exif datetime_str
  let geo := chooseGeo json_data
  if pyTruthy geo then
    match geo with
    | .jobj gf =>
      let lat := pyGetField gf "latitude"
      let lng := pyGetField gf "longitude"
      let alt := pyGetField gf "altitude"
      if !(isNone lat) && !(isNone lng) then add_gps_info exif1 lat lng alt
      else some exif1
    | _ => none
  else some exif1

/-- `embed_full_exif_jpeg(image_path, json_data, datetime_str)` as a pure
transformation of the loaded EXIF container: the core steps followed by the
UserComment step, whose failure is caught by the inner `except` and leaves
the container as the core produced it.  `none` models an exception escaping
the core (the outer `except`, which makes the function return `False`). -/
def embed_full_exif_jpeg (exif : ExifDict) (json_data : List (String × JsonVal))
    (datetime_str : Option String) : Option ExifDict :=
  match embed_core exif json_data datetime_str with
  | none => none
  | some e2 =>
    match set_user_comment e2.exifIfd json_data with
    | some ex => some { e2 with exifIfd := ex }
    | none => some e2

/-- Modelled from the spec: a JPEG file seen as its EXIF metadata segment
plus all its other byte segments (header, pixel data, ...).  The image
codec itself is declared out of scope by the spec ("only the metadata block
is specified here"), so segments other than the EXIF block are opaque
strings. -/
structure JpegFile where
  exifSegment : ExifDict
  otherSegments : List String
deriving DecidableEq

/-- Modelled from the spec: `piexif.insert(exif_bytes, image_path)` writes
the serialized container into the file's existing metadata segment,
"leaving pixel data and all other segments byte-identical". -/
def piexif_insert (e : ExifDict) (f : JpegFile) : JpegFile :=
  { f with exifSegment := e }

/-- The whole-file effect of `embed_full_exif_jpeg`: load the EXIF segment,
transform it, and re-insert it; every other segment of the file is
untouched. -/
def embed_file (f : JpegFile) (json_data : List (String × JsonVal))
    (datetime_str : Option String) : Option JpegFile :=
  (embed_full_exif_jpeg f.exifSegment json_data datetime_str).map
    (fun e => piexif_insert e f)

/-- `embed_metadata_png(image_path, json_data, datetime_str)` (lines
125-157): build the provenance dict (capture-time string, device, url,
imageViews — `json.dumps` serializes absent values as `null`), serialize
it, and store it as the single `tEXt` chunk keyed `"UserComment"`.  The
result is that `(key, text)` pair; `none` models an exception caught by
the `except` (a non-dict intermediate in the device chain), making the
function return `False`. -/
def embed_metadata_png (json_data : List (String × JsonVal))
    (datetime_str : Option String) : Option (String × String) := do
  let device ← deviceChain json_data
  let short_json : JsonVal := .jobj
    [("dateTimeOriginal", match datetime_str with | none => .jnull | some s => .jstr s),
     ("device", device), ("url", pyGetField json_data "url"),
     ("imageViews", pyGetField json_data "imageViews")]
  pure ("UserComment", jsonDumps short_json)

/-- Modelled from the spec (4.5): the serialization C7 attributes to the PNG
writer, "construct a provenance object containing capture time ..., device
type, URL, view count (each omitted if absent) serialized as JSON text" —
i.e. with every absent field left out of the object instead of serialized
as `null`.  Kept for comparison against `embed_metadata_png`. -/
def pngProvenanceOmitted (json_data : List (String × JsonVal))
    (datetime_str : Option String) : Option (String × String) := do
  let device ← deviceChain json_data
  let fields :=
    (match datetime_str with | none => [] | some s => [("dateTimeOriginal", JsonVal.jstr s)]) ++
    (if isNone device then [] else [("device", device)]) ++
    (if isNone (pyGetField json_data "url") then [] else [("url", pyGetField json_data "url")]) ++
    (if isNone (pyGetField json_data "imageViews") then []
     else [("imageViews", pyGetField json_data "imageViews")])
  pure ("UserComment", jsonDumps (.jobj fields))

/-- `find_json_file(media_path)`: try the three sidecar suffixes in order
against the full media path and return the first candidate that exists
(`os.path.exists` is abstracted as the predicate `ex`). -/
def find_json_file (ex : String → Bool) (media_path : String) : Option String :=
  let candidates :=
    [media_path ++ ".supplemental-metadata.json",
     media_path ++ ".suppl.json",
     media_path ++ ".json"]
  candidates.find? ex

/-- `read_json_metadata(json_path)` after a successful `json.load` of a
top-level object: extract and format `photoTakenTime.timestamp` when the
combined `in` test at line 44 passes; `none` models an exception reaching
the `except` (which makes the Python function return `(None, None)`, a
per-file parse failure). -/
def read_json_metadata (metadata : List (String × JsonVal)) :
    Option (List (String × JsonVal) × Option String) :=
  match metadata.lookup "photoTakenTime" with
  | none => some (metadata, none)
  | some ptt =>
    match pyContainsKey ptt "timestamp" with
    | none => none
    | some false => some (metadata, none)
    | some true =>
      match pySubscript ptt "timestamp" with
      | none => none
      | some tsv =>
        match pythonInt tsv with
        | some ts =>
          match formatEpochUTC ts with
          | some dt_str => some (metadata, some dt_str)
          | none => none
        | none => none

/-- `is_image(filename)`: extension test (case-insensitive) and not a macOS
`._` artifact. -/
def is_image (filename : String) : Bool :=
  (endsWithStr (lowerStr filename) ".jpg" || endsWithStr (lowerStr filename) ".jpeg" ||
   endsWithStr (lowerStr filename) ".png" || endsWithStr (lowerStr filename) ".gif") &&
  !(startsWithStr (basename filename) "._")

/-- `is_jpeg(filename)`. -/
def is_jpeg (filename : String) : Bool :=
  endsWithStr (lowerStr filename) ".jpg" || endsWithStr (lowerStr filename) ".jpeg"

/-- `is_png(filename)`. -/
def is_png (filename : String) : Bool :=
  endsWithStr (lowerStr filename) ".png"

/-- The filesystem and library environment a batch run interacts with:
the media files yielded by `os.walk` (already joined to full paths, in walk
order), the `os.path.exists` predicate, the result of reading+`json.load`
per path (`none` = `IOError`/malformed JSON), the loaded EXIF container per
JPEG path (`none` = `piexif.load` failure), and whether PIL can re-encode a
given PNG. -/
structure Env where
  walkFiles : List String
  fsExists : String → Bool
  readJson : String → Option (List (String × JsonVal))
  loadExif : String → Option ExifDict
  pngSaveOk : String → Bool

/-- The outcome accumulators of `process_directory`: the `successful_images`
and `failed_images` lists, the log lines written to `embed_log.txt`, and
the paths whose on-disk metadata was actually rewritten. -/
structure RunState where
  successful : List String
  failed : List String
  log : List String
  mutated : List String
deriving DecidableEq

/-- Concatenation of per-file outcome deltas, in processing order. -/
def appendState (a b : RunState) : RunState :=
  ⟨a.successful ++ b.successful, a.failed ++ b.failed, a.log ++ b.log, a.mutated ++ b.mutated⟩

/-- The `{dt_str}` interpolation of the success log line: Python prints
`None` for an absent date-time. -/
def showOptStr : Option String → String
  | none => "None"
  | some s => s

/-- One iteration of the `process_directory` loop body (lines 172-197) for a
single walked file, as the outcome delta it appends: which list the path
joins, the log line written, and whether the file was mutated.  The
`if metadata:` gate at line 178 is dict truthiness, so a parse result that
is `None` *or* an empty dict is logged `FAILED TO READ JSON METADATA`. -/
def process_file (env : Env) (media_path : String) : RunState :=
  if is_image media_path then
    match find_json_file env.fsExists media_path with
    | none => ⟨[], [media_path], ["NO JSON METADATA FILE FOUND: " ++ media_path], []⟩
    | some json_path =>
      match env.readJson json_path with
      | none => ⟨[], [media_path], ["FAILED TO READ JSON METADATA: " ++ json_path], []⟩
      | some metadata0 =>
        match read_json_metadata metadata0 with
        | none => ⟨[], [media_path], ["FAILED TO READ JSON METADATA: " ++ json_path], []⟩
        | some (metadata, dt_str) =>
          if !(pyTruthy (.jobj metadata)) then
            ⟨[], [media_path], ["FAILED TO READ JSON METADATA: " ++ json_path], []⟩
          else
          let success :=
            if is_jpeg media_path then
              match env.loadExif media_path with
              | none => false
              | some exif => (embed_full_exif_jpeg exif metadata dt_str).isSome
            else if is_png media_path then
              env.pngSaveOk media_path && (embed_metadata_png metadata dt_str).isSome
            else false
          if success then
            ⟨[media_path],
             [],
             ["IMAGE EMBEDDED SUCCESSFULLY: " ++ media_path ++ " with date/time " ++ showOptStr dt_str],
             [media_path]⟩
          else ⟨[], [media_path], ["IMAGE EMBEDDING FAILED: " ++ media_path], []⟩
  else ⟨[], [], [], []⟩

/-- `process_directory(directory)`: fold the per-file outcomes over the walk
order, starting from empty accumulators. -/
def process_directory (env : Env) : RunState :=
  env.walkFiles.foldl (fun st p => appendState st (process_file env p)) ⟨[], [], [], []⟩

/-- An empty EXIF container (used as concrete input in witnesses). -/
def exif0 : ExifDict := ⟨[], [], [], [], [], none⟩

/-- The decimal-degree value denoted by a DMS rational triple:
`degrees + minutes/60 + (secNum/secDen)/3600`. -/
def dmsValue (t : (Int × Int) × (Int × Int) × (Int × Int)) : Rat :=
  (t.1.1 : Rat) / (t.1.2 : Rat) + ((t.2.1.1 : Rat) / (t.2.1.2 : Rat)) / 60 +
    ((t.2.2.1 : Rat) / (t.2.2.2 : Rat)) / 3600

/-- A geo record yields a usable fix exactly when it is a (truthy) dict
whose `latitude` and `longitude` are both non-`None` (lines 96-100). -/
def hasLatLngPair : JsonVal → Bool
  | .jobj fs =>
    pyTruthy (.jobj fs) && !(isNone (pyGetField fs "latitude")) &&
      !(isNone (pyGetField fs "longitude"))
  | _ => false

/-- A chosen geo value of the shape the sidecar schema intends: either a
dict, or falsy (absent/`null`/empty — anything the `if geo:` test skips). -/
def geoRecordish : JsonVal → Bool
  | .jobj _ => true
  | v => !pyTruthy v

/-- A one-file environment whose single walked media file has no sidecar at
all (every `os.path.exists` check fails). -/
def envNoSidecar : Env :=
  ⟨["photos/a.jpg"], fun _ => false, fun _ => none, fun _ => none, fun _ => false⟩

theorem pyInt_of_nonneg (q : Rat) (h : 0 ≤ q) : pyInt q = ⌊q⌋ := by
  rw [pyInt, if_pos h]

theorem pyRound_abs_sub_le (q : Rat) : |(pyRound q : Rat) - q| ≤ 1/2 := by
  have h0 : 0 ≤ Int.fract q := Int.fract_nonneg q
  have h1 : Int.fract q < 1 := Int.fract_lt_one q
  have hf : (⌊q⌋ : Rat) = q - Int.fract q := by simp only [Int.fract]; ring
  rw [pyRound]
  split_ifs with hlt hgt heq
  · rw [hf, abs_le]; constructor <;> linarith
  · push_cast
    rw [hf, abs_le]; constructor <;> linarith
  · rw [not_lt] at hlt hgt
    rw [hf, abs_le]; constructor <;> linarith
  · rw [not_lt] at hlt hgt
    push_cast
    rw [hf, abs_le]; constructor <;> linarith

theorem lookupTag_setTag_self (l : List (Nat × ExifVal)) (t : Nat) (v : ExifVal) :
    lookupTag (setTag l t v) t = some v := by
  induction l with
  | nil => simp [setTag, lookupTag]
  | cons a l ih =>
    obtain ⟨k, w⟩ := a
    by_cases hk : k = t
    · simp [setTag, hk, lookupTag]
    · simp [setTag, hk, lookupTag, Ne.symm hk, ih]

theorem lookupTag_setTag_ne (l : List (Nat × ExifVal)) (t t' : Nat) (v : ExifVal)
    (h : t' ≠ t) : lookupTag (setTag l t v) t' = lookupTag l t' := by
  induction l with
  | nil => simp [setTag, lookupTag, h]
  | cons a l ih =>
    obtain ⟨k, w⟩ := a
    by_cases hk : k = t
    · subst hk
      simp [setTag, lookupTag, h, ih]
    · by_cases ht' : t' = k
      · simp [setTag, hk, lookupTag, ht']
      · simp [setTag, hk, lookupTag, ht', ih]

theorem dropTags_setTag (l : List (Nat × ExifVal)) (t : Nat) (v : ExifVal)
    (banned : List Nat) (h : t ∈ banned) :
    dropTags (setTag l t v) banned = dropTags l banned := by
  induction l with
  | nil => simp [setTag, dropTags, h]
  | cons a l ih =>
    obtain ⟨k, w⟩ := a
    by_cases hk : k = t
    · subst hk
      simp [setTag, dropTags, h]
    · simp [setTag, hk, dropTags, ih]

/-- C1: for every decimal-degree input `d` in [-180, 180], `to_deg` computes
degrees = ⌊|d|⌋, minutes = ⌊(|d| - degrees) * 60⌋, secondsNumerator =
round(((|d| - degrees) * 60 - minutes) * 60 * 10000) with denominator 10000
(`int` truncation coincides with floor on these nonnegative intermediates);
the denoted value `degrees + minutes/60 + (secNum/secDen)/3600` equals `|d|`
within 1/10000 arc-second; and `add_gps_info` writes latitude reference "N"
when the latitude is ≥ 0 else "S", longitude reference "E" when the
longitude is ≥ 0 else "W". -/
theorem C1_toDMS_encoding (d la ln : Rat) (h1 : -180 ≤ d) (h2 : d ≤ 180) (exif : ExifDict) :
    to_deg d =
      ((⌊|d|⌋, 1), (⌊(|d| - ⌊|d|⌋) * 60⌋, 1),
       (pyRound (((|d| - ⌊|d|⌋) * 60 - ⌊(|d| - ⌊|d|⌋) * 60⌋) * 60 * 10000), 10000)) ∧
    abs (dmsValue (to_deg d) - abs d) ≤ (1/10000) / 3600 ∧
    add_gps_info exif (.jfloat la) (.jfloat ln) .jnull =
      some { exif with gps :=
        [(GPSLatitudeRefTag, .bytes (if 0 ≤ la then "N" else "S")),
         (GPSLatitudeTag, .rational3 (to_deg la)),
         (GPSLongitudeRefTag, .bytes (if 0 ≤ ln then "E" else "W")),
         (GPSLongitudeTag, .rational3 (to_deg ln))] } := by
  have habs : (0 : Rat) ≤ |d| := abs_nonneg d
  have hfl : (⌊|d|⌋ : Rat) ≤ |d| := Int.floor_le _
  have hfr : (0 : Rat) ≤ (|d| - ⌊|d|⌋) * 60 := by
    have : (0 : Rat) ≤ |d| - ⌊|d|⌋ := by linarith
    linarith
  have hto : to_deg d =
      ((⌊|d|⌋, 1), (⌊(|d| - ⌊|d|⌋) * 60⌋, 1),
       (pyRound (((|d| - ⌊|d|⌋) * 60 - ⌊(|d| - ⌊|d|⌋) * 60⌋) * 60 * 10000), 10000)) := by
    simp only [to_deg]
    rw [pyInt_of_nonneg _ habs, pyInt_of_nonneg _ hfr]
  refine ⟨hto, ?_, ?_⟩
  · have hkey : dmsValue (to_deg d) - abs d =
        ((pyRound (((|d| - ⌊|d|⌋) * 60 - ⌊(|d| - ⌊|d|⌋) * 60⌋) * 60 * 10000) : Rat) -
          ((|d| - ⌊|d|⌋) * 60 - ⌊(|d| - ⌊|d|⌋) * 60⌋) * 60 * 10000) / 36000000 := by
      rw [hto]
      simp only [dmsValue]
      push_cast
      ring
    rw [hkey, abs_div, abs_of_pos (show (0 : Rat) < 36000000 by norm_num)]
    have hr := pyRound_abs_sub_le (((|d| - ⌊|d|⌋) * 60 - ⌊(|d| - ⌊|d|⌋) * 60⌋) * 60 * 10000)
    calc |(pyRound (((|d| - ⌊|d|⌋) * 60 - ⌊(|d| - ⌊|d|⌋) * 60⌋) * 60 * 10000) : Rat) -
          ((|d| - ⌊|d|⌋) * 60 - ⌊(|d| - ⌊|d|⌋) * 60⌋) * 60 * 10000| / 36000000
        ≤ (1/2) / 36000000 := by gcongr
      _ ≤ (1/10000) / 3600 := by norm_num
  · rfl

theorem C1_toDMS_encoding_witness :
    (-180 ≤ (3/2 : Rat)) ∧ ((3/2 : Rat) ≤ 180) ∧
    abs (dmsValue (to_deg (3/2)) - abs (3/2 : Rat)) ≤ (1/10000) / 3600 ∧
    add_gps_info exif0 (.jfloat 1) (.jfloat (-1)) .jnull =
      some { exif0 with gps :=
        [(GPSLatitudeRefTag, .bytes (if 0 ≤ (1 : Rat) then "N" else "S")),
         (GPSLatitudeTag, .rational3 (to_deg 1)),
         (GPSLongitudeRefTag, .bytes (if 0 ≤ (-1 : Rat) then "E" else "W")),
         (GPSLongitudeTag, .rational3 (to_deg (-1)))] } :=
  ⟨by norm_num, by norm_num,
   (C1_toDMS_encoding (3/2) 1 (-1) (by norm_num) (by norm_num) exif0).2.1,
   (C1_toDMS_encoding (3/2) 1 (-1) (by norm_num) (by norm_num) exif0).2.2⟩

theorem set_user_comment_eq_none (ifd : List (Nat × ExifVal))
    (json_data : List (String × JsonVal)) : set_user_comment ifd json_data = none := by
  rw [set_user_comment]
  cases deviceChain json_data <;> simp [userCommentEncodePrefixAttr, Option.bind]

/-- C2: the sidecar resolver tries exactly the suffixes
`.supplemental-metadata.json`, `.suppl.json`, `.json` appended to the full
media path, in that priority order, returns the first candidate that
exists, and returns none when no candidate exists; in particular when both
a `.supplemental-metadata.json` and a `.json` sidecar exist the former is
returned (first scenario: nothing about the other candidates is assumed). -/
theorem C2_sidecar_resolution
    (ex1 : String → Bool) (p1 : String)
    (h1 : ex1 (p1 ++ ".supplemental-metadata.json") = true)
    (ex2 : String → Bool) (p2 : String)
    (h2a : ex2 (p2 ++ ".supplemental-metadata.json") = false)
    (h2b : ex2 (p2 ++ ".suppl.json") = true)
    (ex3 : String → Bool) (p3 : String)
    (h3a : ex3 (p3 ++ ".supplemental-metadata.json") = false)
    (h3b : ex3 (p3 ++ ".suppl.json") = false)
    (h3c : ex3 (p3 ++ ".json") = true)
    (ex4 : String → Bool) (p4 : String)
    (h4a : ex4 (p4 ++ ".supplemental-metadata.json") = false)
    (h4b : ex4 (p4 ++ ".suppl.json") = false)
    (h4c : ex4 (p4 ++ ".json") = false) :
    find_json_file ex1 p1 = some (p1 ++ ".supplemental-metadata.json") ∧
    find_json_file ex2 p2 = some (p2 ++ ".suppl.json") ∧
    find_json_file ex3 p3 = some (p3 ++ ".json") ∧
    find_json_file ex4 p4 = none := by
  refine ⟨?_, ?_, ?_, ?_⟩ <;>
    simp [find_json_file, List.find?, h1, h2a, h2b, h3a, h3b, h3c, h4a, h4b, h4c]

theorem C2_sidecar_resolution_witness :
    find_json_file (fun _ => true) "a.jpg" = some ("a.jpg" ++ ".supplemental-metadata.json") ∧
    find_json_file (fun s => decide (s = "b.jpg.suppl.json")) "b.jpg" =
      some ("b.jpg" ++ ".suppl.json") ∧
    find_json_file (fun s => decide (s = "c.jpg.json")) "c.jpg" = some ("c.jpg" ++ ".json") ∧
    find_json_file (fun _ => false) "d.jpg" = none := by
  have h := C2_sidecar_resolution (fun _ => true) "a.jpg" rfl
    (fun s => decide (s = "b.jpg.suppl.json")) "b.jpg" (by decide) (by decide)
    (fun s => decide (s = "c.jpg.json")) "c.jpg" (by decide) (by decide) (by decide)
    (fun _ => false) "d.jpg" rfl rfl rfl
  exact h

/-- C3 counterexample: a readable, well-formed sidecar whose
`photoTakenTime.timestamp` is present but not integer-parseable makes
`read_json_metadata` fail (the `int()` call raises, the `except` returns
`(None, None)`), contradicting the claim that such a record is still
successfully parsed with an absent capture time. -/
theorem C3_unparseable_timestamp_fails :
    read_json_metadata [("photoTakenTime", .jobj [("timestamp", .jstr "notanumber")])] = none ∧
    ([("timestamp", JsonVal.jstr "notanumber")].lookup "timestamp").isSome = true := by
  exact ⟨by rfl, by decide⟩

/-- C3 as amended: when `photoTakenTime.timestamp` is present,
integer-parseable (Python `int()` also accepts surrounding whitespace and
underscores between digits) and within `datetime`'s representable years
1..9999, the parse yields the `YYYY:MM:DD HH:MM:SS` UTC string
(1700000000 ↦ "2023:11:14 22:13:20"); when `photoTakenTime` is absent, or
present as a dict without `timestamp`, the record still parses with an
absent capture time; but when the timestamp is present and either not
integer-parseable or outside the representable range, the parse fails. -/
theorem C3_capture_time_parse
    (m1 ptt1 : List (String × JsonVal)) (tsv1 : JsonVal) (n1 : Int) (s1 : String)
    (h1a : m1.lookup "photoTakenTime" = some (.jobj ptt1))
    (h1b : ptt1.lookup "timestamp" = some tsv1)
    (h1c : pythonInt tsv1 = some n1)
    (h1d : formatEpochUTC n1 = some s1)
    (m2 : List (String × JsonVal))
    (h2 : m2.lookup "photoTakenTime" = none)
    (m3 ptt3 : List (String × JsonVal))
    (h3a : m3.lookup "photoTakenTime" = some (.jobj ptt3))
    (h3b : ptt3.lookup "timestamp" = none)
    (m4 ptt4 : List (String × JsonVal)) (tsv4 : JsonVal)
    (h4a : m4.lookup "photoTakenTime" = some (.jobj ptt4))
    (h4b : ptt4.lookup "timestamp" = some tsv4)
    (h4c : pythonInt tsv4 = none)
    (m5 ptt5 : List (String × JsonVal)) (tsv5 : JsonVal) (n5 : Int)
    (h5a : m5.lookup "photoTakenTime" = some (.jobj ptt5))
    (h5b : ptt5.lookup "timestamp" = some tsv5)
    (h5c : pythonInt tsv5 = some n5)
    (h5d : formatEpochUTC n5 = none) :
    read_json_metadata m1 = some (m1, some s1) ∧
    read_json_metadata m2 = some (m2, none) ∧
    read_json_metadata m3 = some (m3, none) ∧
    read_json_metadata m4 = none ∧
    read_json_metadata m5 = none ∧
    formatEpochUTC 1700000000 = some "2023:11:14 22:13:20" := by
  refine ⟨?_, ?_, ?_, ?_, ?_, by decide⟩
  · simp [read_json_metadata, h1a, pyContainsKey, h1b, pySubscript, h1c, h1d]
  · simp [read_json_metadata, h2]
  · simp [read_json_metadata, h3a, pyContainsKey, h3b, pySubscript]
  · simp [read_json_metadata, h4a, pyContainsKey, h4b, pySubscript, h4c]
  · simp [read_json_metadata, h5a, pyContainsKey, h5b, pySubscript, h5c, h5d]

theorem C3_capture_time_parse_witness :
    pythonInt (.jstr " 1_700_000_000 ") = some 1700000000 ∧
    read_json_metadata [("photoTakenTime", .jobj [("timestamp", .jstr " 1_700_000_000 ")])] =
      some ([("photoTakenTime", .jobj [("timestamp", .jstr " 1_700_000_000 ")])],
        some "2023:11:14 22:13:20") ∧
    read_json_metadata [("url", .jstr "http://u")] = some ([("url", .jstr "http://u")], none) ∧
    read_json_metadata [("photoTakenTime", .jobj [])] =
      some ([("photoTakenTime", .jobj [])], none) ∧
    read_json_metadata [("photoTakenTime", .jobj [("timestamp", .jnull)])] = none ∧
    read_json_metadata [("photoTakenTime", .jobj [("timestamp", .jint 1000000000000)])] =
      none ∧
    formatEpochUTC 1700000000 = some "2023:11:14 22:13:20" := by
  have h := C3_capture_time_parse
    [("photoTakenTime", .jobj [("timestamp", .jstr " 1_700_000_000 ")])]
    [("timestamp", .jstr " 1_700_000_000 ")] (.jstr " 1_700_000_000 ") 1700000000
    "2023:11:14 22:13:20"
    (by rfl) (by rfl) (by decide) (by decide)
    [("url", .jstr "http://u")] (by rfl)
    [("photoTakenTime", .jobj [])] [] (by rfl) (by rfl)
    [("photoTakenTime", .jobj [("timestamp", .jnull)])] [("timestamp", .jnull)] .jnull
    (by rfl) (by rfl) (by rfl)
    [("photoTakenTime", .jobj [("timestamp", .jint 1000000000000)])]
    [("timestamp", .jint 1000000000000)] (.jint 1000000000000) 1000000000000
    (by rfl) (by rfl) (by rfl) (by decide)
  exact ⟨by decide, h.1, h.2.1, h.2.2.1, h.2.2.2.1, h.2.2.2.2.1, h.2.2.2.2.2⟩

/-- C4: the JpegFamily embed writes a GPS sub-block only when both latitude
and longitude are present in the chosen geo record (`geoDataExif`
preferred, else `geoData`): whenever the chosen geo value is record-shaped
(a dict, or falsy) but yields no latitude+longitude pair — in particular
when it carries only an altitude, or when no geo record exists at all —
the embed succeeds and the resulting container's GPS IFD is exactly the
loaded one (no GPS sub-block is created). -/
theorem C4_gps_only_with_pair (exif : ExifDict) (json_data : List (String × JsonVal))
    (dt : Option String)
    (hrec : geoRecordish (chooseGeo json_data) = true)
    (hnopair : hasLatLngPair (chooseGeo json_data) = false) :
    embed_full_exif_jpeg exif json_data dt = some (applyDatetime exif dt) ∧
    (applyDatetime exif dt).gps = exif.gps := by
  constructor
  · have hcore : embed_core exif json_data dt = some (applyDatetime exif dt) := by
      rw [embed_core]
      by_cases ht : pyTruthy (chooseGeo json_data) = true
      · rw [if_pos ht]
        cases hg : chooseGeo json_data with
        | jobj gf =>
          rw [hg] at ht hnopair
          simp only [hasLatLngPair, ht, Bool.true_and] at hnopair
          simp [hnopair]
        | jnull => rw [hg] at ht; simp [pyTruthy] at ht
        | jbool b => rw [hg] at hrec ht; simp [geoRecordish, ht] at hrec
        | jint n => rw [hg] at hrec ht; simp [geoRecordish, ht] at hrec
        | jfloat q => rw [hg] at hrec ht; simp [geoRecordish, ht] at hrec
        | jstr s => rw [hg] at hrec ht; simp [geoRecordish, ht] at hrec
        | jarr es => rw [hg] at hrec ht; simp [geoRecordish, ht] at hrec
      · rw [if_neg ht]
    simp [embed_full_exif_jpeg, hcore, set_user_comment_eq_none]
  · cases dt <;> rfl

theorem C4_gps_only_with_pair_witness :
    geoRecordish (chooseGeo [("geoDataExif", .jobj [("altitude", .jfloat 10)])]) = true ∧
    hasLatLngPair (chooseGeo [("geoDataExif", .jobj [("altitude", .jfloat 10)])]) = false ∧
    embed_full_exif_jpeg exif0 [("geoDataExif", .jobj [("altitude", .jfloat 10)])]
      (some "2023:11:14 22:13:20") =
      some (applyDatetime exif0 (some "2023:11:14 22:13:20")) ∧
    (applyDatetime exif0 (some "2023:11:14 22:13:20")).gps = exif0.gps := by
  have h := C4_gps_only_with_pair exif0 [("geoDataExif", .jobj [("altitude", .jfloat 10)])]
    (some "2023:11:14 22:13:20") (by rfl) (by rfl)
  exact ⟨by rfl, by rfl, h.1, h.2⟩

/-- C10: the geo-record fallback is decided by truthiness — when
`geoDataExif` is present as a non-empty dict, it is the chosen record no
matter what `geoData` holds; and when it lacks `latitude` or `longitude`
(absent or `null`), no GPS sub-block is written (the GPS IFD stays exactly
the loaded one) even though `geoData` — never consulted — may contain a
full pair, and the embed still succeeds. -/
theorem C10_geo_truthiness_fallback (exif : ExifDict) (json_data : List (String × JsonVal))
    (dt : Option String) (fs : List (String × JsonVal))
    (hx : json_data.lookup "geoDataExif" = some (.jobj fs))
    (hne : fs ≠ [])
    (hmiss : isNone (pyGetField fs "latitude") = true ∨
      isNone (pyGetField fs "longitude") = true) :
    chooseGeo json_data = .jobj fs ∧
    embed_full_exif_jpeg exif json_data dt = some (applyDatetime exif dt) ∧
    (applyDatetime exif dt).gps = exif.gps := by
  have htr : pyTruthy (JsonVal.jobj fs) = true := by
    cases fs with
    | nil => exact absurd rfl hne
    | cons a l => rfl
  have hchoose : chooseGeo json_data = .jobj fs := by
    simp only [chooseGeo, pyGetField, hx, Option.getD_some, htr, if_true]
  have hpair : (!(isNone (pyGetField fs "latitude")) &&
      !(isNone (pyGetField fs "longitude"))) = false := by
    rcases hmiss with h | h <;> simp [h]
  have hcore : embed_core exif json_data dt = some (applyDatetime exif dt) := by
    rw [embed_core, hchoose, if_pos htr]
    simp [hpair]
  refine ⟨hchoose, ?_, ?_⟩
  · simp [embed_full_exif_jpeg, hcore, set_user_comment_eq_none]
  · cases dt <;> rfl

theorem C10_geo_truthiness_fallback_witness :
    ([("geoDataExif", JsonVal.jobj [("longitude", .jfloat 151)]),
      ("geoData", .jobj [("latitude", .jfloat (-33)), ("longitude", .jfloat 151)])].lookup
        "geoDataExif" = some (.jobj [("longitude", .jfloat 151)])) ∧
    isNone (pyGetField [("longitude", JsonVal.jfloat 151)] "latitude") = true ∧
    chooseGeo [("geoDataExif", JsonVal.jobj [("longitude", .jfloat 151)]),
      ("geoData", .jobj [("latitude", .jfloat (-33)), ("longitude", .jfloat 151)])] =
      .jobj [("longitude", .jfloat 151)] ∧
    embed_full_exif_jpeg exif0
      [("geoDataExif", JsonVal.jobj [("longitude", .jfloat 151)]),
       ("geoData", .jobj [("latitude", .jfloat (-33)), ("longitude", .jfloat 151)])]
      (some "2020:01:01 00:00:00") =
      some (applyDatetime exif0 (some "2020:01:01 00:00:00")) ∧
    (applyDatetime exif0 (some "2020:01:01 00:00:00")).gps = exif0.gps := by
  have h := C10_geo_truthiness_fallback exif0
    [("geoDataExif", JsonVal.jobj [("longitude", .jfloat 151)]),
     ("geoData", .jobj [("latitude", .jfloat (-33)), ("longitude", .jfloat 151)])]
    (some "2020:01:01 00:00:00") [("longitude", .jfloat 151)]
    (by rfl) (List.cons_ne_nil _ _) (Or.inl (by rfl))
  exact ⟨by rfl, by rfl, h.1, h.2.1, h.2.2⟩

/-- C5 counterexample: for altitude 0.999 the encoder stores the rational
(99, 100) — `int(abs(alt) * 100)` truncates — while the claimed
`round(|a| * 100)` is 100; the claim fails at this input. -/
theorem C5_altitude_rounding_counterexample :
    add_gps_info exif0 .jnull .jnull (.jfloat (999/1000)) =
      some { exif0 with gps :=
        [(GPSAltitudeTag, .rational 99 100), (GPSAltitudeRefTag, .short 0)] } ∧
    pyRound (abs (999/1000 : Rat) * 100) = 100 := by
  have hm : abs (999/1000 : Rat) * 100 = 999/10 := by
    rw [abs_of_nonneg (by norm_num : (0 : Rat) ≤ 999/1000)]
    norm_num
  have hfl : ⌊(999/10 : Rat)⌋ = 99 := by
    rw [Int.floor_eq_iff]
    constructor <;> norm_num
  have hint : pyInt (abs (999/1000 : Rat) * 100) = 99 := by
    rw [hm, pyInt, if_pos (by norm_num : (0 : Rat) ≤ 999/10), hfl]
  have hflag : (if 0 ≤ (999/1000 : Rat) then (0 : Int) else 1) = 0 :=
    if_pos (by norm_num)
  constructor
  · calc add_gps_info exif0 .jnull .jnull (.jfloat (999/1000))
        = some { exif0 with gps :=
            [(GPSAltitudeTag, .rational (pyInt (abs (999/1000 : Rat) * 100)) 100),
             (GPSAltitudeRefTag, .short (if 0 ≤ (999/1000 : Rat) then 0 else 1))] } := by rfl
      _ = some { exif0 with gps :=
            [(GPSAltitudeTag, .rational 99 100), (GPSAltitudeRefTag, .short 0)] } := by
          rw [hint, hflag]
  · have hfr : Int.fract (999/10 : Rat) = 9/10 := by
      simp only [Int.fract, hfl]
      norm_num
    rw [hm, pyRound, hfr, if_neg (by norm_num), if_pos (by norm_num), hfl]
    decide

/-- C5 as amended: for every present altitude value `a` (any numeric JSON
value), the encoder stores the GPS altitude as
`(int(|a| * 100), 100)` — `int()` truncation toward zero, not rounding —
with reference flag 0 when `a ≥ 0` and 1 when `a < 0`. -/
theorem C5_altitude_truncation (exif e : ExifDict) (lat lng av : JsonVal) (a : Rat)
    (ha : asNum av = some a)
    (h : add_gps_info exif lat lng av = some e) :
    lookupTag e.gps GPSAltitudeTag = some (.rational (pyInt (abs a * 100)) 100) ∧
    lookupTag e.gps GPSAltitudeRefTag = some (.short (if 0 ≤ a then 0 else 1)) := by
  have hnav : isNone av = false := by
    cases av <;> simp_all [asNum, isNone]
  rw [add_gps_info] at h
  simp only [hnav, Bool.not_false, if_true, ha] at h
  by_cases hc1 : (!(isNone lat) && !(isNone lng)) = true
  · simp only [hc1, if_true] at h
    cases hla : asNum lat with
    | none => rw [hla] at h; simp at h
    | some la =>
      rw [hla] at h
      cases hln : asNum lng with
      | none => rw [hln] at h; simp at h
      | some ln =>
        rw [hln] at h
        simp only [Option.some.injEq] at h
        rw [← h]
        refine ⟨?_, ?_⟩
        · rw [lookupTag_setTag_ne _ _ _ _ (by decide), lookupTag_setTag_self]
        · rw [lookupTag_setTag_self]
  · simp only [Bool.not_eq_true] at hc1
    simp only [hc1, Bool.false_eq_true, if_false] at h
    simp only [Option.some.injEq] at h
    rw [← h]
    refine ⟨?_, ?_⟩
    · rw [lookupTag_setTag_ne _ _ _ _ (by decide), lookupTag_setTag_self]
    · rw [lookupTag_setTag_self]

theorem C5_altitude_truncation_witness :
    asNum (.jfloat 5) = some (5 : Rat) ∧
    add_gps_info exif0 .jnull .jnull (.jfloat 5) =
      some { exif0 with gps :=
        [(GPSAltitudeTag, .rational (pyInt (abs (5 : Rat) * 100)) 100),
         (GPSAltitudeRefTag, .short (if 0 ≤ (5 : Rat) then 0 else 1))] } ∧
    lookupTag ({ exif0 with gps :=
        [(GPSAltitudeTag, ExifVal.rational (pyInt (abs (5 : Rat) * 100)) 100),
         (GPSAltitudeRefTag, ExifVal.short (if 0 ≤ (5 : Rat) then 0 else 1))] } : ExifDict).gps
      GPSAltitudeTag = some (.rational (pyInt (abs (5 : Rat) * 100)) 100) := by
  refine ⟨rfl, rfl, ?_⟩
  exact (C5_altitude_truncation exif0 _ .jnull .jnull (.jfloat 5) 5 rfl rfl).1

/-- C6 counterexample: running the batch over a single media file with no
sidecar appends the file to the *failed* list — `process_directory` has no
skipped category at all, so the outcome is Failed, not Skipped — while the
log line is the distinct `NO JSON METADATA FILE FOUND` one, the successful
list stays empty, and no mutation happens. -/
theorem C6_no_sidecar_counted_failed :
    process_directory envNoSidecar =
      { successful := [], failed := ["photos/a.jpg"],
        log := ["NO JSON METADATA FILE FOUND: photos/a.jpg"], mutated := [] } := by
  decide

/-- C6 as amended: for every media file with no matching sidecar the run
appends exactly that one path to the failed list (the script counts it in
`failed_images`; there is no skipped list), writes the
`NO JSON METADATA FILE FOUND: <path>` log line, leaves the successful list
unchanged, and performs no metadata mutation on the file. -/
theorem C6_no_sidecar_outcome (env : Env) (p : String) (st : RunState)
    (himg : is_image p = true)
    (hnone : find_json_file env.fsExists p = none) :
    process_file env p = ⟨[], [p], ["NO JSON METADATA FILE FOUND: " ++ p], []⟩ ∧
    (appendState st (process_file env p)).failed = st.failed ++ [p] ∧
    (appendState st (process_file env p)).successful = st.successful ∧
    (appendState st (process_file env p)).log =
      st.log ++ ["NO JSON METADATA FILE FOUND: " ++ p] ∧
    (appendState st (process_file env p)).mutated = st.mutated := by
  have h1 : process_file env p = ⟨[], [p], ["NO JSON METADATA FILE FOUND: " ++ p], []⟩ := by
    simp [process_file, himg, hnone]
  refine ⟨h1, ?_, ?_, ?_, ?_⟩ <;> rw [h1] <;> simp [appendState]

theorem C6_no_sidecar_outcome_witness :
    is_image "photos/a.jpg" = true ∧
    find_json_file envNoSidecar.fsExists "photos/a.jpg" = none ∧
    process_file envNoSidecar "photos/a.jpg" =
      ⟨[], ["photos/a.jpg"], ["NO JSON METADATA FILE FOUND: " ++ "photos/a.jpg"], []⟩ ∧
    (appendState ⟨[], [], [], []⟩ (process_file envNoSidecar "photos/a.jpg")).failed =
      [] ++ ["photos/a.jpg"] := by
  have h := C6_no_sidecar_outcome envNoSidecar "photos/a.jpg" ⟨[], [], [], []⟩
    (by decide) (by rfl)
  exact ⟨by decide, by rfl, h.1, h.2.1⟩

/-- C7 counterexample: at a sidecar with none of the provenance fields, the
PNG writer serializes every absent field as JSON `null` — the text chunk is
`{"dateTimeOriginal": null, "device": null, "url": null, "imageViews": null}` —
whereas the claimed "each field omitted when absent" serialization would be
the empty object; the claim fails at this input. -/
theorem C7_png_fields_not_omitted :
    embed_metadata_png [] none =
      some ("UserComment",
        "\x7b\"dateTimeOriginal\": null, \"device\": null, \"url\": null, \"imageViews\": null\x7d") ∧
    pngProvenanceOmitted [] none = some ("UserComment", "\x7b\x7d") ∧
    embed_metadata_png [] none ≠ pngProvenanceOmitted [] none := by
  refine ⟨by rfl, by rfl, by decide⟩

/-- C7 as amended: the PNG writer stores a single provenance JSON object
under the text-metadata key "UserComment", always containing the four keys
`dateTimeOriginal` (the parser's `YYYY:MM:DD HH:MM:SS` string — not
ISO-8601 — or `null` when absent), `device`, `url` and `imageViews`, each
serialized as `null` rather than omitted when absent upstream; no GPS data
exists anywhere in this writer's output.  The second conjunct shows a
fully evaluated example. -/
theorem C7_png_provenance (json_data : List (String × JsonVal)) (dt : Option String)
    (device : JsonVal) (hdev : deviceChain json_data = some device) :
    embed_metadata_png json_data dt =
      some ("UserComment", jsonDumps (.jobj
        [("dateTimeOriginal", match dt with | none => .jnull | some s => .jstr s),
         ("device", device),
         ("url", pyGetField json_data "url"),
         ("imageViews", pyGetField json_data "imageViews")])) ∧
    embed_metadata_png [("url", .jstr "http://u")] (some "2023:11:14 22:13:20") =
      some ("UserComment",
        "\x7b\"dateTimeOriginal\": \"2023:11:14 22:13:20\", \"device\": null, \"url\": \"http://u\", \"imageViews\": null\x7d") := by
  constructor
  · simp [embed_metadata_png, hdev]
  · rfl

theorem C7_png_provenance_witness :
    deviceChain [("url", JsonVal.jstr "http://u")] = some .jnull ∧
    embed_metadata_png [("url", .jstr "http://u")] (some "2023:11:14 22:13:20") =
      some ("UserComment", jsonDumps (.jobj
        [("dateTimeOriginal", .jstr "2023:11:14 22:13:20"),
         ("device", .jnull),
         ("url", pyGetField [("url", JsonVal.jstr "http://u")] "url"),
         ("imageViews", pyGetField [("url", JsonVal.jstr "http://u")] "imageViews")])) := by
  have h := C7_png_provenance [("url", .jstr "http://u")] (some "2023:11:14 22:13:20")
    .jnull (by rfl)
  exact ⟨by rfl, h.1⟩

/-- C8: the UserComment step of the JPEG embed always fails (the EXIF
prefix expression raises `AttributeError`, under the inner `try`), the
failure never escapes: whenever the core steps (timestamps and GPS)
produce a container, the whole embed returns exactly that container — Ok,
with the already-placed timestamp and GPS fields intact. -/
theorem C8_usercomment_failure_tolerated (exif e : ExifDict)
    (json_data : List (String × JsonVal)) (dt : Option String)
    (hcore : embed_core exif json_data dt = some e) :
    set_user_comment e.exifIfd json_data = none ∧
    embed_full_exif_jpeg exif json_data dt = some e := by
  refine ⟨set_user_comment_eq_none _ _, ?_⟩
  simp [embed_full_exif_jpeg, hcore, set_user_comment_eq_none]

theorem C8_usercomment_failure_tolerated_witness :
    embed_core exif0 [("geoDataExif", .jobj [("latitude", .jfloat 1), ("longitude", .jfloat (-1))])]
      (some "2023:11:14 22:13:20") =
      some ⟨[(DateTimeTag, .bytes "2023:11:14 22:13:20")],
            [(DateTimeOriginalTag, .bytes "2023:11:14 22:13:20"),
             (DateTimeDigitizedTag, .bytes "2023:11:14 22:13:20")],
            [(GPSLatitudeRefTag, .bytes "N"), (GPSLatitudeTag, .rational3 (to_deg 1)),
             (GPSLongitudeRefTag, .bytes "W"), (GPSLongitudeTag, .rational3 (to_deg (-1)))],
            [], [], none⟩ ∧
    set_user_comment
      ((⟨[(DateTimeTag, .bytes "2023:11:14 22:13:20")],
         [(DateTimeOriginalTag, .bytes "2023:11:14 22:13:20"),
          (DateTimeDigitizedTag, .bytes "2023:11:14 22:13:20")],
         [(GPSLatitudeRefTag, .bytes "N"), (GPSLatitudeTag, .rational3 (to_deg 1)),
          (GPSLongitudeRefTag, .bytes "W"), (GPSLongitudeTag, .rational3 (to_deg (-1)))],
         [], [], none⟩ : ExifDict)).exifIfd
      [("geoDataExif", .jobj [("latitude", .jfloat 1), ("longitude", .jfloat (-1))])] = none ∧
    embed_full_exif_jpeg exif0
      [("geoDataExif", .jobj [("latitude", .jfloat 1), ("longitude", .jfloat (-1))])]
      (some "2023:11:14 22:13:20") =
      some ⟨[(DateTimeTag, .bytes "2023:11:14 22:13:20")],
            [(DateTimeOriginalTag, .bytes "2023:11:14 22:13:20"),
             (DateTimeDigitizedTag, .bytes "2023:11:14 22:13:20")],
            [(GPSLatitudeRefTag, .bytes "N"), (GPSLatitudeTag, .rational3 (to_deg 1)),
             (GPSLongitudeRefTag, .bytes "W"), (GPSLongitudeTag, .rational3 (to_deg (-1)))],
            [], [], none⟩ := by
  have h := C8_usercomment_failure_tolerated exif0
    ⟨[(DateTimeTag, .bytes "2023:11:14 22:13:20")],
     [(DateTimeOriginalTag, .bytes "2023:11:14 22:13:20"),
      (DateTimeDigitizedTag, .bytes "2023:11:14 22:13:20")],
     [(GPSLatitudeRefTag, .bytes "N"), (GPSLatitudeTag, .rational3 (to_deg 1)),
      (GPSLongitudeRefTag, .bytes "W"), (GPSLongitudeTag, .rational3 (to_deg (-1)))],
     [], [], none⟩
    [("geoDataExif", .jobj [("latitude", .jfloat 1), ("longitude", .jfloat (-1))])]
    (some "2023:11:14 22:13:20") (by rfl)
  exact ⟨by rfl, h.1, h.2⟩

theorem applyDatetime_fields (exif : ExifDict) (dt : Option String) :
    (applyDatetime exif dt).firstIfd = exif.firstIfd ∧
    (applyDatetime exif dt).interop = exif.interop ∧
    (applyDatetime exif dt).thumbnail = exif.thumbnail := by
  cases dt <;> exact ⟨rfl, rfl, rfl⟩

theorem add_gps_info_fields (exif e : ExifDict) (lat lng alt : JsonVal)
    (h : add_gps_info exif lat lng alt = some e) :
    e.zeroth = exif.zeroth ∧ e.exifIfd = exif.exifIfd ∧ e.firstIfd = exif.firstIfd ∧
    e.interop = exif.interop ∧ e.thumbnail = exif.thumbnail := by
  simp only [add_gps_info] at h
  split at h
  · exact absurd h (by simp)
  · split at h
    · exact absurd h (by simp)
    · injection h with h
      subst h
      exact ⟨rfl, rfl, rfl, rfl, rfl⟩

theorem embed_core_fields (exif e : ExifDict) (jd : List (String × JsonVal))
    (dt : Option String) (h : embed_core exif jd dt = some e) :
    e.zeroth = (applyDatetime exif dt).zeroth ∧
    e.exifIfd = (applyDatetime exif dt).exifIfd ∧
    e.firstIfd = exif.firstIfd ∧ e.interop = exif.interop ∧
    e.thumbnail = exif.thumbnail := by
  have hfields := applyDatetime_fields exif dt
  simp only [embed_core] at h
  split at h
  · split at h
    · split at h
      · have hf := add_gps_info_fields _ _ _ _ _ h
        exact ⟨hf.1, hf.2.1, hf.2.2.1.trans hfields.1, hf.2.2.2.1.trans hfields.2.1,
          hf.2.2.2.2.trans hfields.2.2⟩
      · injection h with h
        subst h
        exact ⟨rfl, rfl, hfields.1, hfields.2.1, hfields.2.2⟩
    · exact absurd h (by simp)
  · injection h with h
    subst h
    exact ⟨rfl, rfl, hfields.1, hfields.2.1, hfields.2.2⟩

/-- C9: a successful JpegFamily embed leaves every byte segment other than
the EXIF one untouched (`piexif.insert` is modelled from the spec's
"leaving pixel data and all other segments byte-identical"), and inside
the re-serialized container every pre-existing entry outside the
explicitly overwritten fields — `0th.DateTime`, `Exif.DateTimeOriginal`,
`Exif.DateTimeDigitized`, `Exif.UserComment`, and the GPS sub-block — is
preserved unchanged: the 1st IFD, Interop IFD and thumbnail are exactly
the loaded ones, and both the 0th and Exif IFDs restricted away from the
overwritten tags are exactly the loaded ones. -/
theorem C9_preserves_unrelated_fields (f f' : JpegFile)
    (json_data : List (String × JsonVal)) (dt : Option String)
    (h : embed_file f json_data dt = some f') :
    f'.otherSegments = f.otherSegments ∧
    dropTags f'.exifSegment.zeroth [DateTimeTag] =
      dropTags f.exifSegment.zeroth [DateTimeTag] ∧
    dropTags f'.exifSegment.exifIfd
        [DateTimeOriginalTag, DateTimeDigitizedTag, UserCommentTag] =
      dropTags f.exifSegment.exifIfd
        [DateTimeOriginalTag, DateTimeDigitizedTag, UserCommentTag] ∧
    f'.exifSegment.firstIfd = f.exifSegment.firstIfd ∧
    f'.exifSegment.interop = f.exifSegment.interop ∧
    f'.exifSegment.thumbnail = f.exifSegment.thumbnail := by
  rw [embed_file] at h
  cases hemb : embed_full_exif_jpeg f.exifSegment json_data dt with
  | none => rw [hemb] at h; simp at h
  | some e =>
    rw [hemb] at h
    have h' : piexif_insert e f = f' := by simpa using h
    subst h'
    simp only [embed_full_exif_jpeg] at hemb
    cases hcore : embed_core f.exifSegment json_data dt with
    | none => rw [hcore] at hemb; simp at hemb
    | some e2 =>
      rw [hcore] at hemb
      simp only [set_user_comment_eq_none, Option.some.injEq] at hemb
      subst hemb
      have hcf := embed_core_fields _ _ _ _ hcore
      refine ⟨rfl, ?_, ?_, hcf.2.2.1, hcf.2.2.2.1, hcf.2.2.2.2⟩
      · show dropTags e2.zeroth [DateTimeTag] = dropTags f.exifSegment.zeroth [DateTimeTag]
        rw [hcf.1]
        cases dt with
        | none => rfl
        | some s =>
          show dropTags (setTag f.exifSegment.zeroth DateTimeTag (.bytes s)) [DateTimeTag] =
            dropTags f.exifSegment.zeroth [DateTimeTag]
          exact dropTags_setTag _ _ _ _ (by decide)
      · show dropTags e2.exifIfd [DateTimeOriginalTag, DateTimeDigitizedTag, UserCommentTag] =
          dropTags f.exifSegment.exifIfd [DateTimeOriginalTag, DateTimeDigitizedTag, UserCommentTag]
        rw [hcf.2.1]
        cases dt with
        | none => rfl
        | some s =>
          show dropTags (setTag (setTag f.exifSegment.exifIfd DateTimeOriginalTag (.bytes s))
              DateTimeDigitizedTag (.bytes s))
              [DateTimeOriginalTag, DateTimeDigitizedTag, UserCommentTag] =
            dropTags f.exifSegment.exifIfd
              [DateTimeOriginalTag, DateTimeDigitizedTag, UserCommentTag]
          rw [dropTags_setTag _ _ _ _ (by decide), dropTags_setTag _ _ _ _ (by decide)]

theorem C9_preserves_unrelated_fields_witness :
    embed_file
      ⟨⟨[(271, .bytes "TestMake")], [(33434, .rational 1 50)], [(1, .bytes "N")],
        [(513, .rational 4 1)], [(2, .short 1)], some "THUMB"⟩,
       ["ffd8-header", "pixel-data"]⟩
      [] (some "2023:11:14 22:13:20") =
      some ⟨⟨[(271, .bytes "TestMake"), (DateTimeTag, .bytes "2023:11:14 22:13:20")],
             [(33434, .rational 1 50), (DateTimeOriginalTag, .bytes "2023:11:14 22:13:20"),
              (DateTimeDigitizedTag, .bytes "2023:11:14 22:13:20")],
             [(1, .bytes "N")], [(513, .rational 4 1)], [(2, .short 1)], some "THUMB"⟩,
            ["ffd8-header", "pixel-data"]⟩ ∧
    (⟨⟨[(271, ExifVal.bytes "TestMake"), (DateTimeTag, .bytes "2023:11:14 22:13:20")],
       [(33434, .rational 1 50), (DateTimeOriginalTag, .bytes "2023:11:14 22:13:20"),
        (DateTimeDigitizedTag, .bytes "2023:11:14 22:13:20")],
       [(1, .bytes "N")], [(513, .rational 4 1)], [(2, .short 1)], some "THUMB"⟩,
      ["ffd8-header", "pixel-data"]⟩ : JpegFile).otherSegments =
      (⟨⟨[(271, ExifVal.bytes "TestMake")], [(33434, .rational 1 50)], [(1, .bytes "N")],
         [(513, .rational 4 1)], [(2, .short 1)], some "THUMB"⟩,
        ["ffd8-header", "pixel-data"]⟩ : JpegFile).otherSegments ∧
    dropTags
        (⟨⟨[(271, ExifVal.bytes "TestMake"), (DateTimeTag, .bytes "2023:11:14 22:13:20")],
           [(33434, .rational 1 50), (DateTimeOriginalTag, .bytes "2023:11:14 22:13:20"),
            (DateTimeDigitizedTag, .bytes "2023:11:14 22:13:20")],
           [(1, .bytes "N")], [(513, .rational 4 1)], [(2, .short 1)], some "THUMB"⟩,
          ["ffd8-header", "pixel-data"]⟩ : JpegFile).exifSegment.zeroth [DateTimeTag] =
      dropTags
        (⟨⟨[(271, ExifVal.bytes "TestMake")], [(33434, .rational 1 50)], [(1, .bytes "N")],
           [(513, .rational 4 1)], [(2, .short 1)], some "THUMB"⟩,
          ["ffd8-header", "pixel-data"]⟩ : JpegFile).exifSegment.zeroth [DateTimeTag] := by
  have h := C9_preserves_unrelated_fields
    ⟨⟨[(271, .bytes "TestMake")], [(33434, .rational 1 50)], [(1, .bytes "N")],
      [(513, .rational 4 1)], [(2, .short 1)], some "THUMB"⟩,
     ["ffd8-header", "pixel-data"]⟩
    ⟨⟨[(271, .bytes "TestMake"), (DateTimeTag, .bytes "2023:11:14 22:13:20")],
      [(33434, .rational 1 50), (DateTimeOriginalTag, .bytes "2023:11:14 22:13:20"),
       (DateTimeDigitizedTag, .bytes "2023:11:14 22:13:20")],
      [(1, .bytes "N")], [(513, .rational 4 1)], [(2, .short 1)], some "THUMB"⟩,
     ["ffd8-header", "pixel-data"]⟩
    [] (some "2023:11:14 22:13:20") (by rfl)
  exact ⟨by rfl, h.1, h.2.1⟩
